import Mathlib

/-!
Verification of the aggregation / rendering / CI-decision logic of
`ci-sonar-analyzer.py` (class `SonarQubeCIAnalyzer`).

Python dictionaries are embedded as association lists `List (String × α)`
with insertion-order semantics: `dictGetD` models `d.get(k, default)` and
`dictSet` models `d[k] = v` (update the existing key in place, otherwise
append at the end, exactly as a Python dict preserves insertion order).
Fetch results (`make_request` returning parsed JSON or `None`) are embedded
as `Option` of a structure; a field that may be absent from the JSON object
is an `Option` field, read through `Option.getD` to model `.get(key, default)`.
-/

/-- Models `d.get(k, v)` on a Python dict embedded as an association list. -/
def dictGetD {α : Type} (d : List (String × α)) (k : String) (v : α) : α :=
  match d with
  | [] => v
  | (k', v') :: t => if k' = k then v' else dictGetD t k v

/-- Models `d[k] = v` on a Python dict embedded as an association list:
replace the value at an existing key in place, otherwise append the new
key at the end (Python dicts preserve insertion order). -/
def dictSet {α : Type} (d : List (String × α)) (k : String) (v : α) : List (String × α) :=
  match d with
  | [] => [(k, v)]
  | (k', v') :: t => if k' = k then (k, v) :: t else (k', v') :: dictSet t k v

/-- The keys of an embedded dict, in order. -/
def keysOf {α : Type} (d : List (String × α)) : List String :=
  d.map Prod.fst

/-- Sum of all values of an embedded counter dict (`sum(d.values())`). -/
def dictSum (d : List (String × Nat)) : Nat :=
  (d.map Prod.snd).sum

/-- Total length of all detail lists of an embedded dict of lists. -/
def detailsSum {β : Type} (d : List (String × List β)) : Nat :=
  (d.map (fun p => p.2.length)).sum

/-- Contiguous-sublist test on character lists: true iff `needle` occurs
as a contiguous run inside `hay`. -/
def charsInfixOf (needle hay : List Char) : Bool :=
  match hay with
  | [] => needle.isEmpty
  | _ :: t => needle.isPrefixOf hay || charsInfixOf needle t

/-- Models the Python substring test `needle in hay`. -/
def strContains (hay needle : String) : Bool :=
  charsInfixOf needle.data hay.data

/-- Models Python `s.lower()`: lower-case every character (ASCII lowering
via `Char.toLower`, which agrees with Python on the ASCII keywords the
classifier tests for). -/
def strLower (s : String) : String :=
  String.mk (s.data.map Char.toLower)

/-- An issue record from the `issues/search` response.  Every field models a
JSON key that may be absent, hence `Option`; the Python code reads them with
`.get` and the defaults shown in `analyze_issues`. -/
structure Issue where
  severity : Option String
  type : Option String
  rule : Option String
  message : Option String
  component : Option String
  line : Option Int
  isNew : Option Bool
deriving DecidableEq, Repr

/-- The normalized detail record built at lines 94–100 of `analyze_issues`.
`line = none` models the Python sentinel value `"N/A"` stored when the
`line` key is absent. -/
structure IssueDetail where
  rule : String
  message : String
  severity : String
  component : String
  line : Option Int
deriving DecidableEq, Repr

/-- The critical-issue record built at lines 105–111 of `analyze_issues`
(`issue.get("rule")` etc. default to `None`, hence `Option`). -/
structure CriticalIssue where
  rule : Option String
  severity : String
  message : Option String
  file : String
  line : Option Int
deriving DecidableEq, Repr

/-- The `analysis` dict built by `analyze_issues` for a non-null input. -/
structure Analysis where
  total : Nat
  by_severity : List (String × Nat)
  by_type : List (String × Nat)
  by_category : List (String × Nat)
  category_details : List (String × List IssueDetail)
  critical_issues : List CriticalIssue
  new_issues : Nat
deriving DecidableEq, Repr

/-- Result type of `analyze_issues`: the Python function returns the empty
dict `{}` (no keys at all) when the input is falsy, and the full `analysis`
dict otherwise.  `emptyDict` models the literal `{}`. -/
inductive AnalysisResult where
  | emptyDict : AnalysisResult
  | full : Analysis → AnalysisResult
deriving DecidableEq, Repr

/-- The parsed `issues/search` response body: the `issues` key may be absent
(`issues_data.get("issues", [])`). -/
structure IssuesData where
  issues : Option (List Issue)
deriving DecidableEq, Repr

/-- The `projectStatus` object of the quality-gate response; its `status`
key may be absent. -/
structure ProjectStatus where
  status : Option String
deriving DecidableEq, Repr

/-- The parsed `qualitygates/project_status` response body; `projectStatus`
may be absent. -/
structure QualityGate where
  projectStatus : Option ProjectStatus
deriving DecidableEq, Repr

/-- The `ci_decision` object of the JSON summary (lines 242–246). -/
structure CIDecision where
  should_fail : Bool
  has_warnings : Bool
  is_passing : Bool
deriving DecidableEq, Repr

/-- The security keyword list of `_get_issue_category` (line 309). -/
def security_patterns : List String :=
  ["hardcoded", "password", "secret", "credential", "token", "key"]

/-- The reliability keyword list of `_get_issue_category` (line 314). -/
def reliability_patterns : List String :=
  ["null", "npe", "exception", "crash", "fail"]

/-- `_get_issue_category` (lines 294–319): direct mapping by issue type
first, then keyword-substring classification on the lower-cased rule key
and message, security patterns before reliability patterns, defaulting to
`"MAINTAINABILITY"`. -/
def get_issue_category (issue_type : String) (rule_key : String) (message : String) : String :=
  if issue_type = "BUG" then "RELIABILITY"
  else if issue_type = "VULNERABILITY" then "SECURITY"
  else if issue_type = "CODE_SMELL" then "MAINTAINABILITY"
  else
    let rule_lower := strLower rule_key
    let message_lower := strLower message
    if security_patterns.any (fun p => strContains rule_lower p || strContains message_lower p) then
      "SECURITY"
    else if reliability_patterns.any (fun p => strContains rule_lower p || strContains message_lower p) then
      "RELIABILITY"
    else
      "MAINTAINABILITY"

/-- The rating table of `_format_rating` (line 325). -/
def ratings_table : List (String × String) :=
  [("1.0", "A ⭐"), ("2.0", "B 🟢"), ("3.0", "C 🟡"), ("4.0", "D 🟠"), ("5.0", "E 🔴")]

/-- `_format_rating` (lines 321–326).  The argument is `Option String`
because callers pass `measures.get(key)`, which is `None` for an absent
metric; `if not rating` is true exactly for `None` and the empty string.
Unrecognized truthy values fall through `ratings.get(rating, rating)` and
come back verbatim. -/
def format_rating (rating : Option String) : String :=
  if rating = none ∨ rating = some "" then "N/A"
  else
    dictGetD ratings_table (rating.getD "") (rating.getD "")

/-- Models `component.split(":")[-1]` (the file-name extraction at line 98). -/
def lastColonSegment (s : String) : String :=
  (s.splitOn ":").getLastD ""

/-- Models `analysis["category_details"][category].append(detail)`
(line 101).  Python raises `KeyError` when the key is absent; the key is
always one of the three pre-seeded categories (proved below), so the
absent-key branch is unreachable and is embedded as a no-op. -/
def appendDetail (d : List (String × List IssueDetail)) (k : String) (x : IssueDetail) :
    List (String × List IssueDetail) :=
  match d with
  | [] => []
  | (k', l) :: t => if k' = k then (k', l ++ [x]) :: t else (k', l) :: appendDetail t k x

/-- The initial `analysis` dict of `analyze_issues` (lines 66–78), with
`total = len(issues)`. -/
def initAnalysis (n : Nat) : Analysis :=
  { total := n
    by_severity := [("BLOCKER", 0), ("CRITICAL", 0), ("MAJOR", 0), ("MINOR", 0), ("INFO", 0)]
    by_type := [("BUG", 0), ("VULNERABILITY", 0), ("CODE_SMELL", 0)]
    by_category := [("RELIABILITY", 0), ("SECURITY", 0), ("MAINTAINABILITY", 0)]
    category_details := [("RELIABILITY", []), ("SECURITY", []), ("MAINTAINABILITY", [])]
    critical_issues := []
    new_issues := 0 }

/-- One iteration of the `for issue in issues` loop of `analyze_issues`
(lines 80–115), updating the accumulated `analysis` dict. -/
def analyzeStep (analysis : Analysis) (issue : Issue) : Analysis :=
  let severity := issue.severity.getD "UNKNOWN"
  let issue_type := issue.type.getD "UNKNOWN"
  let rule_key := issue.rule.getD ""
  let message := issue.message.getD ""
  let category := get_issue_category issue_type rule_key message
  let issue_detail : IssueDetail :=
    { rule := rule_key
      message := message
      severity := severity
      component := lastColonSegment (issue.component.getD "")
      line := issue.line }
  { total := analysis.total
    by_severity :=
      dictSet analysis.by_severity severity (dictGetD analysis.by_severity severity 0 + 1)
    by_type :=
      dictSet analysis.by_type issue_type (dictGetD analysis.by_type issue_type 0 + 1)
    by_category :=
      dictSet analysis.by_category category (dictGetD analysis.by_category category 0 + 1)
    category_details := appendDetail analysis.category_details category issue_detail
    critical_issues :=
      if severity = "BLOCKER" ∨ severity = "CRITICAL" then
        analysis.critical_issues ++
          [{ rule := issue.rule
             severity := severity
             message := issue.message
             file := lastColonSegment (issue.component.getD "")
             line := issue.line }]
      else analysis.critical_issues
    new_issues :=
      if issue.isNew.getD false then analysis.new_issues + 1 else analysis.new_issues }

/-- The loop of `analyze_issues` over a concrete issue list: initializes the
`analysis` dict with `total = len(issues)` and folds the per-issue step. -/
def analyzeIssuesList (issues : List Issue) : Analysis :=
  List.foldl analyzeStep (initAnalysis issues.length) issues

/-- `analyze_issues` (lines 59–117): a falsy `issues_data` (null fetch
result) returns the empty dict `{}`; otherwise the issue list is read with
`issues_data.get("issues", [])` and aggregated. -/
def analyze_issues (issues_data : Option IssuesData) : AnalysisResult :=
  match issues_data with
  | none => AnalysisResult.emptyDict
  | some d => AnalysisResult.full (analyzeIssuesList (d.issues.getD []))

/-- The `qg_status` extraction of the renderers (lines 150–153, 229–231,
259–261): `"UNKNOWN"` when the quality-gate response is null, has no
`projectStatus` key, or the `projectStatus` object has no `status` key. -/
def summary_qg_status (quality_gate : Option QualityGate) : String :=
  match quality_gate with
  | none => "UNKNOWN"
  | some qg =>
    match qg.projectStatus with
    | none => "UNKNOWN"
    | some ps => ps.status.getD "UNKNOWN"

/-- The `qg_status` extraction of `get_exit_code` (line 336):
`quality_gate.get("projectStatus", {}).get("status", "ERROR")`. -/
def exit_qg_status (qg : QualityGate) : String :=
  ((qg.projectStatus.getD { status := none }).status).getD "ERROR"

/-- The `ci_decision` object of `_generate_json_summary` (lines 242–246),
as a function of the extracted `qg_status` string and the analysis's
`by_severity` dict. -/
def json_ci_decision (qg_status : String) (by_severity : List (String × Nat)) : CIDecision :=
  { should_fail := decide (qg_status ≠ "OK") || decide (dictGetD by_severity "BLOCKER" 0 > 0)
    has_warnings := decide (dictGetD by_severity "CRITICAL" 0 > 0)
    is_passing := decide (qg_status = "OK") && decide (dictGetD by_severity "BLOCKER" 0 = 0) }

/-- The CI/CD decision line appended by `_generate_text_summary`
(lines 204–215), as a function of `qg_status` and the `by_severity` dict
from which `blocker_count` and `critical_count` are read. -/
def text_ci_decision (qg_status : String) (by_severity : List (String × Nat)) : String :=
  let blocker_count := dictGetD by_severity "BLOCKER" 0
  let critical_count := dictGetD by_severity "CRITICAL" 0
  if qg_status ≠ "OK" then
    "❌ FAIL - Quality Gate failed\n"
  else if blocker_count > 0 then
    "❌ FAIL - " ++ toString blocker_count ++ " BLOCKER issue(s) found\n"
  else if critical_count > 0 then
    "⚠️  WARNING - " ++ toString critical_count ++ " CRITICAL issue(s) found\n"
  else
    "✅ PASS - No blocking issues found\n"

/-- The `blocker_count` read of `get_exit_code` (lines 340–341). -/
def exit_blocker_count (d : IssuesData) : Nat :=
  dictGetD (analyzeIssuesList (d.issues.getD [])).by_severity "BLOCKER" 0

/-- `get_exit_code` (lines 328–346), as a function of the two fetch
results: 2 when either fetch returned null, else 1 when the gate status is
not `"OK"`, else 1 when the blocker count is positive, else 0. -/
def get_exit_code (quality_gate : Option QualityGate) (issues_data : Option IssuesData) : Nat :=
  match quality_gate, issues_data with
  | none, _ => 2
  | some _, none => 2
  | some qg, some d =>
    if exit_qg_status qg ≠ "OK" then 1
    else if exit_blocker_count d > 0 then 1
    else 0

/-- A quality-gate response reporting status `"OK"` (concrete test input). -/
def qgOK : QualityGate :=
  { projectStatus := some { status := some "OK" } }

/-- A CRITICAL BUG issue (concrete test input). -/
def issueCrit1 : Issue :=
  { severity := some "CRITICAL", type := some "BUG", rule := some "r1",
    message := some "m1", component := some "p:f.py", line := some 3, isNew := some false }

/-- A CRITICAL VULNERABILITY issue (concrete test input). -/
def issueCrit2 : Issue :=
  { severity := some "CRITICAL", type := some "VULNERABILITY", rule := some "r2",
    message := some "m2", component := none, line := none, isNew := none }

/-- An issues response carrying the two CRITICAL issues (concrete test
input). -/
def dataCrit : IssuesData :=
  { issues := some [issueCrit1, issueCrit2] }

/-- The category computed for one issue inside the loop of
`analyze_issues`: the local variables `issue_type`, `rule_key`, `message`
of lines 82–84 fed to `_get_issue_category` (line 90). -/
def issueCategory (i : Issue) : String :=
  get_issue_category (i.type.getD "UNKNOWN") (i.rule.getD "") (i.message.getD "")

/-- The normalized detail record of lines 94–100 for one issue. -/
def issueDetailOf (i : Issue) : IssueDetail :=
  { rule := i.rule.getD ""
    message := i.message.getD ""
    severity := i.severity.getD "UNKNOWN"
    component := lastColonSegment (i.component.getD "")
    line := i.line }

theorem analyzeStep_total (a : Analysis) (i : Issue) : (analyzeStep a i).total = a.total := rfl

theorem analyzeStep_by_severity (a : Analysis) (i : Issue) :
    (analyzeStep a i).by_severity =
      dictSet a.by_severity (i.severity.getD "UNKNOWN")
        (dictGetD a.by_severity (i.severity.getD "UNKNOWN") 0 + 1) := rfl

theorem analyzeStep_by_type (a : Analysis) (i : Issue) :
    (analyzeStep a i).by_type =
      dictSet a.by_type (i.type.getD "UNKNOWN")
        (dictGetD a.by_type (i.type.getD "UNKNOWN") 0 + 1) := rfl

theorem analyzeStep_by_category (a : Analysis) (i : Issue) :
    (analyzeStep a i).by_category =
      dictSet a.by_category (issueCategory i)
        (dictGetD a.by_category (issueCategory i) 0 + 1) := rfl

theorem analyzeStep_category_details (a : Analysis) (i : Issue) :
    (analyzeStep a i).category_details =
      appendDetail a.category_details (issueCategory i) (issueDetailOf i) := rfl

theorem dictGetD_dictSet_self {α : Type} (d : List (String × α)) (k : String) (v w : α) :
    dictGetD (dictSet d k v) k w = v := by
  induction d with
  | nil => simp [dictSet, dictGetD]
  | cons p t ih =>
    obtain ⟨a, b⟩ := p
    by_cases h : a = k
    · simp [dictSet, dictGetD, h]
    · simp [dictSet, dictGetD, h, ih]

theorem dictGetD_dictSet_ne {α : Type} (d : List (String × α)) (k k' : String) (v w : α)
    (h : k' ≠ k) : dictGetD (dictSet d k v) k' w = dictGetD d k' w := by
  induction d with
  | nil => simp [dictSet, dictGetD, Ne.symm h]
  | cons p t ih =>
    obtain ⟨a, b⟩ := p
    by_cases ha : a = k
    · subst ha; simp [dictSet, dictGetD, Ne.symm h]
    · simp [dictSet, dictGetD, ha, ih]

theorem dictSum_bump (d : List (String × Nat)) (k : String) :
    dictSum (dictSet d k (dictGetD d k 0 + 1)) = dictSum d + 1 := by
  induction d with
  | nil => simp [dictSet, dictGetD, dictSum]
  | cons p t ih =>
    obtain ⟨a, b⟩ := p
    by_cases h : a = k
    · simp [dictSet, dictGetD, h, dictSum]; omega
    · simp [dictSet, dictGetD, h, dictSum] at ih ⊢; omega

theorem keysOf_dictSet_mem {α : Type} (d : List (String × α)) (k : String) (v : α)
    (h : k ∈ keysOf d) : keysOf (dictSet d k v) = keysOf d := by
  induction d with
  | nil => simp [keysOf] at h
  | cons p t ih =>
    obtain ⟨a, b⟩ := p
    by_cases ha : a = k
    · simp [dictSet, ha, keysOf]
    · have h' : k ∈ keysOf t := by
        rcases (by simpa [keysOf] using h : k = a ∨ k ∈ keysOf t) with h1 | h1
        · exact absurd h1.symm ha
        · exact h1
      have ih' := ih h'
      simp [dictSet, ha, keysOf] at ih' ⊢
      exact ih'

theorem keysOf_appendDetail (d : List (String × List IssueDetail)) (k : String) (x : IssueDetail) :
    keysOf (appendDetail d k x) = keysOf d := by
  induction d with
  | nil => rfl
  | cons p t ih =>
    obtain ⟨a, l⟩ := p
    by_cases h : a = k
    · simp [appendDetail, h, keysOf]
    · simp [appendDetail, h, keysOf] at ih ⊢; exact ih

theorem detailsSum_appendDetail (d : List (String × List IssueDetail)) (k : String)
    (x : IssueDetail) (h : k ∈ keysOf d) :
    detailsSum (appendDetail d k x) = detailsSum d + 1 := by
  induction d with
  | nil => simp [keysOf] at h
  | cons p t ih =>
    obtain ⟨a, l⟩ := p
    by_cases ha : a = k
    · simp [appendDetail, ha, detailsSum]; omega
    · have h' : k ∈ keysOf t := by
        rcases (by simpa [keysOf] using h : k = a ∨ k ∈ keysOf t) with h1 | h1
        · exact absurd h1.symm ha
        · exact h1
      simp [appendDetail, ha, detailsSum] at ih ⊢
      have := ih h'
      omega

theorem get_issue_category_mem (t r m : String) :
    get_issue_category t r m = "RELIABILITY" ∨ get_issue_category t r m = "SECURITY" ∨
      get_issue_category t r m = "MAINTAINABILITY" := by
  by_cases h1 : t = "BUG"
  · left; simp [get_issue_category, h1]
  by_cases h2 : t = "VULNERABILITY"
  · right; left; simp [get_issue_category, h1, h2]
  by_cases h3 : t = "CODE_SMELL"
  · right; right; simp [get_issue_category, h1, h2, h3]
  by_cases h4 : (security_patterns.any
      (fun p => strContains (strLower r) p || strContains (strLower m) p)) = true
  · right; left; simp [get_issue_category, h1, h2, h3, h4]
  by_cases h5 : (reliability_patterns.any
      (fun p => strContains (strLower r) p || strContains (strLower m) p)) = true
  · left; simp [get_issue_category, h1, h2, h3, h4, h5]
  · right; right; simp [get_issue_category, h1, h2, h3, h4, h5]

theorem foldl_analyzeStep_invariant (issues : List Issue) (a : Analysis)
    (hk : keysOf a.category_details = ["RELIABILITY", "SECURITY", "MAINTAINABILITY"])
    (hbc : keysOf a.by_category = ["RELIABILITY", "SECURITY", "MAINTAINABILITY"]) :
    (List.foldl analyzeStep a issues).total = a.total ∧
    keysOf (List.foldl analyzeStep a issues).category_details = keysOf a.category_details ∧
    keysOf (List.foldl analyzeStep a issues).by_category = keysOf a.by_category ∧
    dictSum (List.foldl analyzeStep a issues).by_severity =
      dictSum a.by_severity + issues.length ∧
    dictSum (List.foldl analyzeStep a issues).by_type = dictSum a.by_type + issues.length ∧
    dictSum (List.foldl analyzeStep a issues).by_category =
      dictSum a.by_category + issues.length ∧
    detailsSum (List.foldl analyzeStep a issues).category_details =
      detailsSum a.category_details + issues.length := by
  induction issues generalizing a with
  | nil => simp
  | cons i rest ih =>
    have hkeys : keysOf (analyzeStep a i).category_details = keysOf a.category_details := by
      rw [analyzeStep_category_details, keysOf_appendDetail]
    have hcatmem : issueCategory i ∈ keysOf a.category_details := by
      rw [hk]
      rcases get_issue_category_mem (i.type.getD "UNKNOWN") (i.rule.getD "")
        (i.message.getD "") with h | h | h <;> simp [issueCategory, h]
    have hbcmem : issueCategory i ∈ keysOf a.by_category := by
      rw [hbc]
      rcases get_issue_category_mem (i.type.getD "UNKNOWN") (i.rule.getD "")
        (i.message.getD "") with h | h | h <;> simp [issueCategory, h]
    have hbckeys : keysOf (analyzeStep a i).by_category = keysOf a.by_category := by
      rw [analyzeStep_by_category]
      exact keysOf_dictSet_mem _ _ _ hbcmem
    obtain ⟨ht, hkk, hbk, hs, hty, hc, hd⟩ :=
      ih (analyzeStep a i) (hkeys.trans hk) (hbckeys.trans hbc)
    refine ⟨?_, ?_, ?_, ?_, ?_, ?_, ?_⟩
    · rw [List.foldl_cons, ht, analyzeStep_total]
    · rw [List.foldl_cons, hkk, hkeys]
    · rw [List.foldl_cons, hbk, hbckeys]
    · rw [List.foldl_cons, hs, analyzeStep_by_severity, dictSum_bump]
      simp; omega
    · rw [List.foldl_cons, hty, analyzeStep_by_type, dictSum_bump]
      simp; omega
    · rw [List.foldl_cons, hc, analyzeStep_by_category, dictSum_bump]
      simp; omega
    · rw [List.foldl_cons, hd, analyzeStep_category_details,
        detailsSum_appendDetail a.category_details (issueCategory i) (issueDetailOf i) hcatmem]
      simp; omega

/-- C1: for every quality-gate status string and every per-severity count
mapping, the `ci_decision` object of the JSON summary satisfies:
`is_passing` is true iff the gate status is `"OK"` and the blocker count is
0; `should_fail` is true iff the gate status is not `"OK"` or the blocker
count is positive; `has_warnings` is true iff the critical count is
positive; and no input makes `is_passing` and `should_fail` both true. -/
theorem C1_json_ci_decision_correct (qg_status : String) (by_severity : List (String × Nat)) :
    ((json_ci_decision qg_status by_severity).is_passing = true ↔
      qg_status = "OK" ∧ dictGetD by_severity "BLOCKER" 0 = 0) ∧
    ((json_ci_decision qg_status by_severity).should_fail = true ↔
      qg_status ≠ "OK" ∨ dictGetD by_severity "BLOCKER" 0 > 0) ∧
    ((json_ci_decision qg_status by_severity).has_warnings = true ↔
      dictGetD by_severity "CRITICAL" 0 > 0) ∧
    ¬((json_ci_decision qg_status by_severity).is_passing = true ∧
      (json_ci_decision qg_status by_severity).should_fail = true) := by
  simp only [json_ci_decision, Bool.and_eq_true, Bool.or_eq_true, decide_eq_true_eq]
  refine ⟨trivial, trivial, trivial, ?_⟩
  rintro ⟨⟨hok, hb⟩, hf | hf⟩
  · exact hf hok
  · omega

/-- Closed instance of `C1_json_ci_decision_correct` at a concrete gate
status and severity mapping. -/
theorem C1_witness : (json_ci_decision "OK" [("BLOCKER", 0)]).is_passing = true :=
  (C1_json_ci_decision_correct "OK" [("BLOCKER", 0)]).1.mpr ⟨rfl, rfl⟩

/-- C2: `get_exit_code` returns 2 when either fetch returned null; for two
successful fetches it returns 1 when the gate status is not `"OK"` or the
blocker count is positive, and 0 when the gate status is `"OK"` and the
blocker count is 0. -/
theorem C2_get_exit_code_correct (quality_gate : Option QualityGate)
    (issues_data : Option IssuesData) :
    (quality_gate = none ∨ issues_data = none → get_exit_code quality_gate issues_data = 2) ∧
    (∀ qg d, quality_gate = some qg → issues_data = some d →
      ((exit_qg_status qg ≠ "OK" ∨ exit_blocker_count d > 0) →
        get_exit_code quality_gate issues_data = 1) ∧
      (exit_qg_status qg = "OK" ∧ exit_blocker_count d = 0 →
        get_exit_code quality_gate issues_data = 0)) := by
  constructor
  · rintro (rfl | rfl)
    · rfl
    · cases quality_gate <;> rfl
  · rintro qg d rfl rfl
    constructor
    · rintro (h | h)
      · simp [get_exit_code, h]
      · by_cases hok : exit_qg_status qg = "OK"
        · simp [get_exit_code, hok, h]
        · simp [get_exit_code, hok]
    · rintro ⟨h1, h2⟩
      simp [get_exit_code, h1, h2]

/-- Closed instance of `C2_get_exit_code_correct`: a gate fetch reporting
status `"ERROR"` together with a successful issues fetch exits 1. -/
theorem C2_witness :
    exit_qg_status { projectStatus := some { status := some "ERROR" } } ≠ "OK" ∧
    get_exit_code (some { projectStatus := some { status := some "ERROR" } })
      (some { issues := some [] }) = 1 :=
  ⟨by decide,
    ((C2_get_exit_code_correct
        (some { projectStatus := some { status := some "ERROR" } })
        (some { issues := some [] })).2
      { projectStatus := some { status := some "ERROR" } } { issues := some [] }
      rfl rfl).1 (Or.inl (by decide))⟩

/-- C5: category classification is the pure function
`get_issue_category (type, rule, message)`, and for every rule key and
message, type `"BUG"` classifies RELIABILITY, `"VULNERABILITY"` classifies
SECURITY and `"CODE_SMELL"` classifies MAINTAINABILITY, regardless of any
keyword content of the rule or message. -/
theorem C5_type_precedence (rule_key message : String) :
    get_issue_category "BUG" rule_key message = "RELIABILITY" ∧
    get_issue_category "VULNERABILITY" rule_key message = "SECURITY" ∧
    get_issue_category "CODE_SMELL" rule_key message = "MAINTAINABILITY" := by
  refine ⟨?_, ?_, ?_⟩ <;> simp [get_issue_category]

/-- C6: for an issue type outside the three known values, a security
keyword match (in the lower-cased rule key or message) forces SECURITY even
when a reliability keyword also matches, and when neither keyword set
matches the result is MAINTAINABILITY. -/
theorem C6_security_priority (t rule_key message : String)
    (h1 : t ≠ "BUG") (h2 : t ≠ "VULNERABILITY") (h3 : t ≠ "CODE_SMELL") :
    ((security_patterns.any (fun p =>
        strContains (strLower rule_key) p || strContains (strLower message) p)) = true →
      get_issue_category t rule_key message = "SECURITY") ∧
    ((security_patterns.any (fun p =>
        strContains (strLower rule_key) p || strContains (strLower message) p)) = false →
      (reliability_patterns.any (fun p =>
        strContains (strLower rule_key) p || strContains (strLower message) p)) = false →
      get_issue_category t rule_key message = "MAINTAINABILITY") := by
  constructor
  · intro hsec
    simp [get_issue_category, h1, h2, h3, hsec]
  · intro hsec hrel
    simp [get_issue_category, h1, h2, h3, hsec, hrel]

/-- Closed instance of `C6_security_priority`: a message containing both
`"PASSWORD"` and `"crash"` with an unrecognized type classifies SECURITY,
and a message matching neither keyword set classifies MAINTAINABILITY. -/
theorem C6_witness :
    get_issue_category "UNKNOWN" "" "Contains PASSWORD and crash" = "SECURITY" ∧
    get_issue_category "UNKNOWN" "" "tidy" = "MAINTAINABILITY" :=
  ⟨(C6_security_priority "UNKNOWN" "" "Contains PASSWORD and crash"
      (by decide) (by decide) (by decide)).1 (by decide),
   (C6_security_priority "UNKNOWN" "" "tidy"
      (by decide) (by decide) (by decide)).2 (by decide) (by decide)⟩

/-- C7 counterexample: the unrecognized rating value `"6.0"` is rendered
verbatim by `_format_rating`, not as the literal `"N/A"` the claim
requires for every unrecognized value. -/
theorem C7_counterexample :
    format_rating (some "6.0") = "6.0" ∧ ("6.0" : String) ≠ "N/A" :=
  ⟨by decide, by decide⟩

/-- C7 amended: `_format_rating` maps `"1.0"`–`"5.0"` to the grades A–E
(each rendered with a trailing emoji); an absent rating (`None`) or an
empty string renders `"N/A"`; every other unrecognized value is rendered
verbatim, not as `"N/A"`. -/
theorem C7_format_rating_amended (r : String) (h1 : r ≠ "")
    (h2 : r ∉ (["1.0", "2.0", "3.0", "4.0", "5.0"] : List String)) :
    format_rating none = "N/A" ∧ format_rating (some "") = "N/A" ∧
    format_rating (some "1.0") = "A ⭐" ∧ format_rating (some "2.0") = "B 🟢" ∧
    format_rating (some "3.0") = "C 🟡" ∧ format_rating (some "4.0") = "D 🟠" ∧
    format_rating (some "5.0") = "E 🔴" ∧ format_rating (some r) = r := by
  refine ⟨rfl, rfl, by decide, by decide, by decide, by decide, by decide, ?_⟩
  have hne : ¬(some r = none ∨ some r = some "") := by
    rintro (h | h)
    · exact Option.noConfusion h
    · exact h1 (Option.some.inj h)
  simp only [List.mem_cons, List.not_mem_nil, or_false, not_or] at h2
  obtain ⟨n1, n2, n3, n4, n5⟩ := h2
  have m1 : ¬("1.0" = r) := fun h => n1 h.symm
  have m2 : ¬("2.0" = r) := fun h => n2 h.symm
  have m3 : ¬("3.0" = r) := fun h => n3 h.symm
  have m4 : ¬("4.0" = r) := fun h => n4 h.symm
  have m5 : ¬("5.0" = r) := fun h => n5 h.symm
  simp only [format_rating, if_neg hne]
  simp [ratings_table, dictGetD, m1, m2, m3, m4, m5]

/-- Closed instance of `C7_format_rating_amended` at the unrecognized
rating value `"7.0"`. -/
theorem C7_witness :
    ("7.0" : String) ≠ "" ∧
    ("7.0" : String) ∉ (["1.0", "2.0", "3.0", "4.0", "5.0"] : List String) ∧
    format_rating (some "7.0") = "7.0" :=
  ⟨by decide, by decide,
    (C7_format_rating_amended "7.0" (by decide) (by decide)).2.2.2.2.2.2.2⟩

/-- C3: for an analysis whose gate status is `"OK"`, blocker count 0 and
critical count positive, the text renderer's CI/CD decision line is the
WARNING line, `get_exit_code` returns 0, and the JSON `ci_decision` has
`has_warnings = true` and `is_passing = true`. -/
theorem C3_warning_scenario (qg : QualityGate) (d : IssuesData)
    (hok : exit_qg_status qg = "OK")
    (hb : dictGetD (analyzeIssuesList (d.issues.getD [])).by_severity "BLOCKER" 0 = 0)
    (hc : 0 < dictGetD (analyzeIssuesList (d.issues.getD [])).by_severity "CRITICAL" 0) :
    text_ci_decision (summary_qg_status (some qg))
        (analyzeIssuesList (d.issues.getD [])).by_severity =
      "⚠️  WARNING - " ++
        toString (dictGetD (analyzeIssuesList (d.issues.getD [])).by_severity "CRITICAL" 0) ++
        " CRITICAL issue(s) found\n" ∧
    get_exit_code (some qg) (some d) = 0 ∧
    (json_ci_decision (summary_qg_status (some qg))
        (analyzeIssuesList (d.issues.getD [])).by_severity).has_warnings = true ∧
    (json_ci_decision (summary_qg_status (some qg))
        (analyzeIssuesList (d.issues.getD [])).by_severity).is_passing = true := by
  have hsum : summary_qg_status (some qg) = "OK" := by
    obtain ⟨ps⟩ := qg
    rcases ps with _ | ⟨st⟩
    · simp [exit_qg_status, Option.getD] at hok
    rcases st with _ | s
    · simp [exit_qg_status, Option.getD] at hok
    · simp [exit_qg_status, Option.getD] at hok
      simp [summary_qg_status, Option.getD, hok]
  rw [hsum]
  refine ⟨?_, ?_, ?_, ?_⟩
  · simp [text_ci_decision, hb, hc]
  · simp [get_exit_code, hok, exit_blocker_count, hb]
  · simp [json_ci_decision, hc]
  · simp [json_ci_decision, hb]

/-- Closed instance of `C3_warning_scenario`: gate `"OK"` and two CRITICAL
issues, no blockers, exits 0 with a passing but warning JSON decision. -/
theorem C3_witness :
    get_exit_code (some qgOK) (some dataCrit) = 0 ∧
    (json_ci_decision (summary_qg_status (some qgOK))
        (analyzeIssuesList (dataCrit.issues.getD [])).by_severity).has_warnings = true := by
  have h := C3_warning_scenario qgOK dataCrit (by decide) (by decide) (by decide)
  exact ⟨h.2.1, h.2.2.1⟩

/-- C4: for every non-null input, `analyze_issues` produces the full
analysis of the fetched issue list, in which the sum of all per-severity
counts and the sum of all per-type counts both equal the total count. -/
theorem C4_severity_type_sums (d : IssuesData) :
    analyze_issues (some d) = AnalysisResult.full (analyzeIssuesList (d.issues.getD [])) ∧
    dictSum (analyzeIssuesList (d.issues.getD [])).by_severity =
      (analyzeIssuesList (d.issues.getD [])).total ∧
    dictSum (analyzeIssuesList (d.issues.getD [])).by_type =
      (analyzeIssuesList (d.issues.getD [])).total := by
  obtain ⟨ht, -, -, hs, hty, -, -⟩ := foldl_analyzeStep_invariant (d.issues.getD [])
    (initAnalysis (d.issues.getD []).length) rfl rfl
  refine ⟨rfl, ?_, ?_⟩
  · simp only [analyzeIssuesList]
    rw [hs, ht]
    simp [initAnalysis, dictSum]
  · simp only [analyzeIssuesList]
    rw [hty, ht]
    simp [initAnalysis, dictSum]

/-- C8 counterexample: on a null input `analyze_issues` returns Python's
empty dict `{}`, which is not the all-zero analysis object (it carries no
`total` key and no severity, type or category buckets at all). -/
theorem C8_counterexample :
    analyze_issues none = AnalysisResult.emptyDict ∧
    analyze_issues none ≠ AnalysisResult.full (initAnalysis 0) :=
  ⟨rfl, by decide⟩

/-- C8 amended: when the issue-list input is null, `analyze_issues`
returns the empty dict `{}` with no keys at all; the defaulted analysis
(total 0, all five severity buckets, three type buckets and three category
buckets at 0, i.e. `initAnalysis 0`) is produced only for a non-null input
whose issue list is empty. -/
theorem C8_analyze_issues_null_amended :
    analyze_issues none = AnalysisResult.emptyDict ∧
    (∀ d : IssuesData, d.issues.getD [] = [] →
      analyze_issues (some d) = AnalysisResult.full (initAnalysis 0)) := by
  refine ⟨rfl, ?_⟩
  intro d hd
  simp [analyze_issues, analyzeIssuesList, hd]

/-- Closed instance of `C8_analyze_issues_null_amended` at an input whose
issue list is present but empty. -/
theorem C8_witness :
    analyze_issues (some { issues := some [] }) = AnalysisResult.full (initAnalysis 0) :=
  C8_analyze_issues_null_amended.2 { issues := some [] } rfl

/-- C9: one loop iteration of `analyze_issues` increments exactly one
severity bucket and exactly one type bucket (the buckets keyed by the
issue's severity and type strings, created dynamically when unrecognized),
leaves every other bucket unchanged, and an issue with a missing severity
field increments the `"UNKNOWN"` bucket rather than being dropped. -/
theorem C9_no_issue_dropped (a : Analysis) (i : Issue) :
    dictGetD (analyzeStep a i).by_severity (i.severity.getD "UNKNOWN") 0 =
      dictGetD a.by_severity (i.severity.getD "UNKNOWN") 0 + 1 ∧
    (∀ k, k ≠ i.severity.getD "UNKNOWN" →
      dictGetD (analyzeStep a i).by_severity k 0 = dictGetD a.by_severity k 0) ∧
    dictGetD (analyzeStep a i).by_type (i.type.getD "UNKNOWN") 0 =
      dictGetD a.by_type (i.type.getD "UNKNOWN") 0 + 1 ∧
    (∀ k, k ≠ i.type.getD "UNKNOWN" →
      dictGetD (analyzeStep a i).by_type k 0 = dictGetD a.by_type k 0) ∧
    dictSum (analyzeStep a i).by_severity = dictSum a.by_severity + 1 ∧
    dictSum (analyzeStep a i).by_type = dictSum a.by_type + 1 ∧
    (i.severity = none →
      dictGetD (analyzeStep a i).by_severity "UNKNOWN" 0 =
        dictGetD a.by_severity "UNKNOWN" 0 + 1) := by
  refine ⟨?_, ?_, ?_, ?_, ?_, ?_, ?_⟩
  · rw [analyzeStep_by_severity, dictGetD_dictSet_self]
  · intro k hk
    rw [analyzeStep_by_severity, dictGetD_dictSet_ne _ _ _ _ _ hk]
  · rw [analyzeStep_by_type, dictGetD_dictSet_self]
  · intro k hk
    rw [analyzeStep_by_type, dictGetD_dictSet_ne _ _ _ _ _ hk]
  · rw [analyzeStep_by_severity, dictSum_bump]
  · rw [analyzeStep_by_type, dictSum_bump]
  · intro hnone
    simp [analyzeStep_by_severity, hnone, dictGetD_dictSet_self]

/-- Closed instance of `C9_no_issue_dropped`: an issue with every field
missing still lands in the `"UNKNOWN"` severity bucket. -/
theorem C9_witness :
    dictGetD (analyzeStep (initAnalysis 0)
        { severity := none, type := none, rule := none, message := none,
          component := none, line := none, isNew := none }).by_severity "UNKNOWN" 0 =
      dictGetD (initAnalysis 0).by_severity "UNKNOWN" 0 + 1 :=
  (C9_no_issue_dropped (initAnalysis 0)
    { severity := none, type := none, rule := none, message := none,
      component := none, line := none, isNew := none }).2.2.2.2.2.2 rfl

/-- C10: the category classifier always returns one of the three values
RELIABILITY, SECURITY, MAINTAINABILITY, so for every issue list fed to
`analyze_issues` the three per-category counts sum to the total issue
count and the three category detail lists' lengths sum to the total. -/
theorem C10_category_partition :
    (∀ t r m : String, get_issue_category t r m = "RELIABILITY" ∨
      get_issue_category t r m = "SECURITY" ∨ get_issue_category t r m = "MAINTAINABILITY") ∧
    (∀ issues : List Issue,
      keysOf (analyzeIssuesList issues).by_category =
        ["RELIABILITY", "SECURITY", "MAINTAINABILITY"] ∧
      keysOf (analyzeIssuesList issues).category_details =
        ["RELIABILITY", "SECURITY", "MAINTAINABILITY"] ∧
      dictSum (analyzeIssuesList issues).by_category = (analyzeIssuesList issues).total ∧
      detailsSum (analyzeIssuesList issues).category_details =
        (analyzeIssuesList issues).total) ∧
    (∀ d : IssuesData,
      analyze_issues (some d) = AnalysisResult.full (analyzeIssuesList (d.issues.getD []))) := by
  refine ⟨get_issue_category_mem, ?_, fun _ => rfl⟩
  intro issues
  obtain ⟨ht, hkk, hbk, -, -, hc, hd⟩ := foldl_analyzeStep_invariant issues
    (initAnalysis issues.length) rfl rfl
  refine ⟨?_, ?_, ?_, ?_⟩
  · simp only [analyzeIssuesList]
    exact hbk.trans rfl
  · simp only [analyzeIssuesList]
    exact hkk.trans rfl
  · simp only [analyzeIssuesList]
    rw [hc, ht]
    simp [initAnalysis, dictSum]
  · simp only [analyzeIssuesList]
    rw [hd, ht]
    simp [initAnalysis, detailsSum]

